import Mathlib

/-!
Shallow embedding of the data-loading core of the alexnet notebook:
the label indexer (get_wnids), the one-hot encoder (one_hot), the
preprocessor (preprocess), the image loader (read_image) and the batch
sampler (read_batch), together with theorems about their behaviour.

Modelling conventions:
  - Python exceptions become an explicit error type, fallible calls
    return Except / Option values.
  - The filesystem is an explicit value: association lists from paths to
    directory listings and to raw image files.
  - The python random module is an explicit stream of draws
    (rand : Nat -> Nat, position k), threaded through the code; randint
    and random.choice consume one draw each.
  - The two while-loops of the source are embedded with a fuel
    parameter; a result of none means the loop is still running after
    fuel iterations, so (for all fuel, ... = none) expresses
    non-termination.
  - numpy int32 arithmetic is modelled as Int: all values involved stay
    far below 2^31, so no wraparound occurs in the source.
-/

namespace AlexnetData

/-- Python exceptions raised by the embedded code. -/
inductive PyErr where
  | indexError : PyErr
  | valueError : PyErr
  | fileNotFound : PyErr
deriving DecidableEq, Repr

/-- An in-memory three-channel image: dimensions plus a total pixel
function (row, column, channel to value). -/
structure Img where
  height : Nat
  width : Nat
  pix : Nat → Nat → Fin 3 → Int

/-- A raw image file as decoded from disk, before RGB conversion:
dimensions, raw channel count (3 = RGB, 1 = grayscale) and raw pixel
data. -/
structure RawImage where
  height : Nat
  width : Nat
  channels : Nat
  pix : Nat → Nat → Nat → Nat

/-- PIL Image.open(...).convert(RGB): a three-channel image of the same
size; a single-channel (grayscale) file has its channel replicated. -/
def convertRGB (im : RawImage) : Img :=
  { height := im.height, width := im.width,
    pix := fun y x c => Int.ofNat (if im.channels = 1 then im.pix y x 0 else im.pix y x c.1) }

/-- Shape of np.array applied to a three-channel PIL image:
(height, width, 3). -/
def npShape (im : Img) : Nat × Nat × Nat := (im.height, im.width, 3)

/-- np.array applied to a three-channel image, as a nested list
(rows of columns of 3 channel values). -/
def npArray (im : Img) : List (List (List Int)) :=
  (List.range im.height).map fun y =>
    (List.range im.width).map fun x =>
      [im.pix y x 0, im.pix y x 1, im.pix y x 2]

/-- The fixed per-channel means of the source: np.array([142, 143, 145]). -/
def means : Fin 3 → Int :=
  fun c => if c.1 = 0 then 142 else if c.1 = 1 then 143 else 145

/-- PIL image.resize((224, 224)) with nearest-neighbour index mapping:
the output is a 224 x 224 image sampling the input grid. -/
def resizeNearest (im : Img) : Img :=
  { height := 224, width := 224,
    pix := fun y x c => im.pix (y * im.height / 224) (x * im.width / 224) c }

/-- The preprocess function of the source: resize to 224 x 224, then
subtract the fixed channel mean from every pixel of each channel
(np.int32 arithmetic, no clamping). -/
def preprocess (image : Img) : Img :=
  let r := resizeNearest image
  { height := r.height, width := r.width,
    pix := fun y x c => r.pix y x c - means c }

/-- The one_hot function of the source: np.zeros(200) with entry 1.0
written at the index position. Exact values 0 and 1 are represented in
the rationals. -/
def one_hot (index : Nat) : List ℚ := (List.replicate 200 (0 : ℚ)).set index 1

/-- The filesystem visible to the code: directory paths with their
ordered listings, and file paths with their decoded raw images. -/
structure FS where
  dirs : List (String × List String)
  files : List (String × RawImage)

/-- os.listdir: the ordered listing of a directory, none when the path
is missing (FileNotFoundError). -/
def FS.listdir (fs : FS) (p : String) : Option (List String) :=
  fs.dirs.lookup p

/-- Image.open on a path: the decoded raw image, none when the file is
missing. -/
def FS.openFile (fs : FS) (p : String) : Option RawImage :=
  fs.files.lookup p

/-- os.path.exists: true when the path names a directory or a file. -/
def FS.pathExists (fs : FS) (p : String) : Bool :=
  (fs.dirs.lookup p).isSome || (fs.files.lookup p).isSome

/-- os.path.join on POSIX paths. -/
def pathJoin (a b : String) : String := a ++ "/" ++ b

/-- random.randint(lo, hi), both bounds inclusive, consuming one draw r
of the stream. -/
def randint (lo hi : Nat) (r : Nat) : Nat := lo + r % (hi - lo + 1)

/-- random.choice on a list, consuming one draw r: uniform selection by
index; none on the empty list (IndexError). -/
def randChoice {α : Type} (l : List α) (r : Nat) : Option α := l[r % l.length]?

/-- The get_wnids function of the source: os.listdir of the folder path,
returned unchanged. -/
def get_wnids (fs : FS) (folder_path : String) : Except PyErr (List String) :=
  match fs.listdir folder_path with
  | none => .error .fileNotFound
  | some wnids => .ok wnids

/-- C8: for every class index i in [0, 199], one_hot i has exactly 200
entries, entry 1.0 at position i, entry 0.0 at every other position
below 200, and exactly one entry equal to 1.0. -/
theorem one_hot_spec (i : Nat) (h : i ≤ 199) :
    (one_hot i).length = 200 ∧
    (one_hot i)[i]? = some (1 : ℚ) ∧
    (∀ j, j < 200 → j ≠ i → (one_hot i)[j]? = some (0 : ℚ)) ∧
    (one_hot i).count 1 = 1 := by
  have hi : i < (List.replicate 200 (0 : ℚ)).length := by
    rw [List.length_replicate]; omega
  refine ⟨?_, ?_, ?_, ?_⟩
  · rw [one_hot, List.length_set, List.length_replicate]
  · rw [one_hot, List.getElem?_set, if_pos rfl, List.length_replicate,
      if_pos (by omega : i < 200)]
  · intro j hj hji
    rw [one_hot, List.getElem?_set, if_neg (Ne.symm hji), List.getElem?_replicate,
      if_pos hj]
  · rw [one_hot, List.set_eq_take_cons_drop 1 hi, List.take_replicate, List.drop_replicate,
      List.count_append, List.count_cons]
    simp only [List.count_replicate, beq_iff_eq]
    norm_num

/-- C8 witness: the properties evaluated at index 7 (and off-index 3). -/
theorem one_hot_spec_witness :
    (one_hot 7).length = 200 ∧
    (one_hot 7)[7]? = some (1 : ℚ) ∧
    (one_hot 7)[3]? = some (0 : ℚ) ∧
    (one_hot 7).count 1 = 1 := by
  have h := one_hot_spec 7 (by norm_num)
  exact ⟨h.1, h.2.1, h.2.2.1 3 (by norm_num) (by norm_num), h.2.2.2⟩

/-- The all-zero 64 x 64 test image. -/
def zeroImg : Img := { height := 64, width := 64, pix := fun _ _ _ => 0 }

/-- C6: every output pixel of preprocess equals the resized raw pixel
minus the fixed channel mean (142 / 143 / 145 for channels 0 / 1 / 2);
the output is not clamped and can be negative (the all-zero image maps
to -142 in channel 0); and preprocess is deterministic: images equal in
dimensions and pixel values preprocess to pointwise equal outputs. -/
theorem preprocess_values (im a b : Img) (hh : a.height = b.height)
    (hw : a.width = b.width) (hp : ∀ y x c, a.pix y x c = b.pix y x c) :
    (∀ y x c, (preprocess im).pix y x c = (resizeNearest im).pix y x c - means c) ∧
    means 0 = 142 ∧ means 1 = 143 ∧ means 2 = 145 ∧
    (∀ y x c, (preprocess a).pix y x c = (preprocess b).pix y x c) ∧
    (preprocess zeroImg).pix 0 0 0 = -142 := by
  refine ⟨fun y x c => rfl, rfl, rfl, rfl, ?_, by decide⟩
  intro y x c
  simp only [preprocess, resizeNearest, hh, hw, hp]

/-- C6 witness: the pointwise equation and the negative output value at
the all-zero image. -/
theorem preprocess_values_witness :
    (preprocess zeroImg).pix 0 0 0 = (resizeNearest zeroImg).pix 0 0 0 - means 0 ∧
    (preprocess zeroImg).pix 0 0 0 = -142 := by
  have h := preprocess_values zeroImg zeroImg zeroImg rfl rfl (fun _ _ _ => rfl)
  exact ⟨h.1 0 0 0, h.2.2.2.2.2⟩

/-- C7: whatever the input image dimensions, the preprocessed output has
numpy shape (224, 224, 3): the nested-array view has 224 rows, each of
224 pixels, each of 3 channel values. -/
theorem preprocess_dims (im : Img) :
    npShape (preprocess im) = (224, 224, 3) ∧
    (npArray (preprocess im)).length = 224 ∧
    ((npArray (preprocess im)).all fun row =>
      row.length == 224 && row.all fun p => p.length == 3) = true := by
  refine ⟨rfl, by simp [npArray, preprocess, resizeNearest], ?_⟩
  simp only [List.all_eq_true, npArray, List.mem_map]
  rintro row ⟨y, _, rfl⟩
  simp [preprocess, resizeNearest, List.mem_map]

/-- The while-loop of read_image, with fuel: pick a uniformly random
file from the folder listing, open it, convert to RGB, and accept when
the shape of np.array of the converted image is (64, 64, 3); otherwise
loop. none means the loop is still running after fuel iterations. The
second Nat is the position in the random stream. -/
def readImageLoop (fs : FS) (images_folder : String) (rand : Nat → Nat) :
    Nat → Nat → Option (Except PyErr (Img × Nat))
  | 0, _ => none
  | fuel + 1, k =>
    match fs.listdir images_folder with
    | none => some (.error .fileNotFound)
    | some files =>
      match randChoice files (rand k) with
      | none => some (.error .indexError)
      | some name =>
        match fs.openFile (pathJoin images_folder name) with
        | none => some (.error .fileNotFound)
        | some raw =>
          let img := convertRGB raw
          if npShape img = (64, 64, 3) then some (.ok (img, k + 1))
          else readImageLoop fs images_folder rand fuel (k + 1)

/-- The read_image function of the source: run the selection loop, then
preprocess the accepted image. -/
def read_image (fs : FS) (images_folder : String) (rand : Nat → Nat)
    (fuel k : Nat) : Option (Except PyErr (Img × Nat)) :=
  match readImageLoop fs images_folder rand fuel k with
  | none => none
  | some (.error e) => some (.error e)
  | some (.ok (img, k2)) => some (.ok (preprocess img, k2))

/-- The inner while-loop of read_batch, with fuel: recompute
folder = os.path.join(wnid_labels[class_index], "images") and re-check
os.path.exists(os.path.join(images_source, folder)) until it holds. The
class index is never re-drawn inside the loop. Indexing beyond the end
of wnid_labels raises IndexError. none means the loop is still running
after fuel iterations. -/
def existsLoop (fs : FS) (images_source : String) (wnid_labels : List String)
    (class_index : Nat) : Nat → Option (Except PyErr String)
  | 0 => none
  | fuel + 1 =>
    match wnid_labels[class_index]? with
    | none => some (.error .indexError)
    | some wnid =>
      let folder := pathJoin wnid "images"
      if fs.pathExists (pathJoin images_source folder) then some (.ok folder)
      else existsLoop fs images_source wnid_labels class_index fuel

/-- np.vstack raises ValueError on an empty list of arrays; on the
nonempty, uniformly shaped arrays produced by read_batch it succeeds
(the source discards its result). -/
def vstackCheck {α : Type} (l : List α) : Except PyErr Unit :=
  if l.isEmpty then .error .valueError else .ok ()

/-- The batch loop of read_batch: for each of the remaining iterations,
draw class_index = random.randint(0, 199), run the existence busy-loop,
read and preprocess one image from the resolved folder, and append the
image and one_hot class_index to the running sequences. The final Nat
is the position reached in the random stream. -/
def readBatchAux (fs : FS) (images_source : String) (wnid_labels : List String)
    (rand : Nat → Nat) (fuel : Nat) :
    Nat → Nat → Option (Except PyErr (List Img × List (List ℚ) × Nat))
  | 0, k => some (.ok ([], [], k))
  | n + 1, k =>
    let class_index := randint 0 199 (rand k)
    match existsLoop fs images_source wnid_labels class_index fuel with
    | none => none
    | some (.error e) => some (.error e)
    | some (.ok folder) =>
      match read_image fs (pathJoin images_source folder) rand fuel (k + 1) with
      | none => none
      | some (.error e) => some (.error e)
      | some (.ok (img, k2)) =>
        match readBatchAux fs images_source wnid_labels rand fuel n k2 with
        | none => none
        | some (.error e) => some (.error e)
        | some (.ok (imgs, labs, k3)) =>
          some (.ok (img :: imgs, one_hot class_index :: labs, k3))

/-- The read_batch function of the source: run the batch loop from
position 0 of the random stream, then np.vstack both sequences
(results discarded) and return the two python lists. -/
def read_batch (fs : FS) (rand : Nat → Nat) (fuel : Nat) (batch_size : Nat)
    (images_source : String) (wnid_labels : List String) :
    Option (Except PyErr (List Img × List (List ℚ))) :=
  match readBatchAux fs images_source wnid_labels rand fuel batch_size 0 with
  | none => none
  | some (.error e) => some (.error e)
  | some (.ok (imgs, labs, _)) =>
    match vstackCheck imgs with
    | .error e => some (.error e)
    | .ok _ =>
      match vstackCheck labs with
      | .error e => some (.error e)
      | .ok _ => some (.ok (imgs, labs))

/-- A conforming raw image: 64 x 64, three channels. -/
def raw64 : RawImage := { height := 64, width := 64, channels := 3, pix := fun _ _ _ => 7 }

/-- A raw 64 x 64 grayscale image: one channel. -/
def grayRaw : RawImage := { height := 64, width := 64, channels := 1, pix := fun _ _ _ => 9 }

/-- A raw 32 x 32 RGB image: wrong spatial size. -/
def smallRaw : RawImage := { height := 32, width := 32, channels := 3, pix := fun _ _ _ => 9 }

/-- The empty filesystem. -/
def emptyFS : FS := { dirs := [], files := [] }

/-- A world with one class folder n0 holding one conforming image. -/
def fsW : FS :=
  { dirs := [("root", ["n0"]), ("root/n0/images", ["i0"])],
    files := [("root/n0/images/i0", raw64)] }

/-- The wnid list of the fsW world. -/
def labelsW : List String := ["n0"]

/-- A world with three class folders a, b, c, each holding one
conforming image. -/
def fs3 : FS :=
  { dirs := [("root", ["a", "b", "c"]), ("root/a/images", ["ia"]),
             ("root/b/images", ["ib"]), ("root/c/images", ["ic"])],
    files := [("root/a/images/ia", raw64), ("root/b/images/ib", raw64),
              ("root/c/images/ic", raw64)] }

/-- A draw stream selecting classes 0, 1, 2 at stream positions 0, 2, 4
(the file draws at odd positions pick index 0). -/
def randABC : Nat → Nat
  | 2 => 1
  | 4 => 2
  | _ => 0

/-- A world with one class folder whose only file is grayscale. -/
def fsGray : FS :=
  { dirs := [("g/images", ["gray0"])], files := [("g/images/gray0", grayRaw)] }

/-- A world with one class folder whose only file is 32 x 32. -/
def fsSmall : FS :=
  { dirs := [("s/images", ["small0"])], files := [("s/images/small0", smallRaw)] }

/-- A world whose root listing is unsorted and has a duplicate. -/
def fsDup : FS := { dirs := [("r", ["b", "b", "a"])], files := [] }

/-- Each successful run of the batch loop returns exactly n images and
n labels. -/
theorem readBatchAux_lengths (fs : FS) (src : String) (labels : List String)
    (rand : Nat → Nat) (fuel : Nat) :
    ∀ n k imgs labs k2,
      readBatchAux fs src labels rand fuel n k = some (.ok (imgs, labs, k2)) →
      imgs.length = n ∧ labs.length = n := by
  intro n
  induction n with
  | zero =>
    intro k imgs labs k2 h
    rw [readBatchAux] at h
    simp only [Option.some.injEq, Except.ok.injEq, Prod.mk.injEq] at h
    obtain ⟨h1, h2, -⟩ := h
    subst h1; subst h2
    exact ⟨rfl, rfl⟩
  | succ n ih =>
    intro k imgs labs k2 h
    rw [readBatchAux] at h
    split at h
    · simp at h
    · simp at h
    · split at h
      · simp at h
      · simp at h
      · split at h
        · simp at h
        · simp at h
        · next imgs0 labs0 k3 heq =>
          simp only [Option.some.injEq, Except.ok.injEq, Prod.mk.injEq] at h
          obtain ⟨h1, h2, -⟩ := h
          have hn := ih _ _ _ _ heq
          subst h1; subst h2
          simp [hn.1, hn.2]

/-- C2: every successful call of read_batch returns two sequences that
both have length batch_size (stated for batch_size at least 1, as in the
specification). -/
theorem read_batch_lengths (fs : FS) (rand : Nat → Nat) (fuel batch_size : Nat)
    (src : String) (labels : List String) (imgs : List Img) (labs : List (List ℚ))
    (hbs : 1 ≤ batch_size)
    (h : read_batch fs rand fuel batch_size src labels = some (.ok (imgs, labs))) :
    imgs.length = batch_size ∧ labs.length = batch_size := by
  rw [read_batch] at h
  rcases hA : readBatchAux fs src labels rand fuel batch_size 0 with - | r
  · rw [hA] at h; cases h
  · rw [hA] at h
    rcases r with e | ⟨imgs0, labs0, k⟩
    · simp at h
    · obtain ⟨h1, h2⟩ :=
        readBatchAux_lengths fs src labels rand fuel batch_size 0 imgs0 labs0 k hA
      have hne : imgs0.isEmpty = false := by
        cases imgs0 with
        | nil => simp at h1; omega
        | cons a l => rfl
      have hne2 : labs0.isEmpty = false := by
        cases labs0 with
        | nil => simp at h2; omega
        | cons a l => rfl
      simp only [vstackCheck, hne, hne2, Bool.false_eq_true, if_false] at h
      simp only [Option.some.injEq, Except.ok.injEq, Prod.mk.injEq] at h
      obtain ⟨h3, h4⟩ := h
      subst h3; subst h4
      exact ⟨h1, h2⟩

/-- C2 witness: a concrete successful call with batch_size 1 in the fsW
world, returning one image and one label. -/
theorem read_batch_lengths_witness :
    read_batch fsW (fun _ => 0) 1 1 "root" labelsW =
      some (.ok ([preprocess (convertRGB raw64)], [one_hot 0])) ∧
    [preprocess (convertRGB raw64)].length = 1 ∧ [one_hot 0].length = 1 := by
  have h := read_batch_lengths fsW (fun _ => 0) 1 1 "root" labelsW
    [preprocess (convertRGB raw64)] [one_hot 0] (by norm_num) rfl
  exact ⟨rfl, h.1, h.2⟩

/-- C1 counterexample: with the 3 class identifiers a, b, c (so
count = 3), a stream whose first draw is 5 makes read_batch select class
index 5, outside [0, count-1]; wnid_labels[5] raises IndexError, so the
call errors instead of returning one-hot labels hot at 0, 1 or 2 — even
in a world where all three class folders hold conforming images. -/
theorem read_batch_three_counterexample :
    read_batch fs3 (fun _ => 5) 1 3 "root" ["a", "b", "c"] =
      some (.error .indexError) := rfl

/-- C1 amended: read_batch draws every class index by
random.randint(0, 199), i.e. uniformly over [0, 199] (draw r maps to
r mod 200, so each index below 200 is hit) independent of the number of
class identifiers; with labels a, b, c, first draws below 3 can yield the
three one-hot labels hot at 0, 1, 2, while a first draw of 5 raises
IndexError. -/
theorem read_batch_class_draw (t : Nat) (ht : t ≤ 199) :
    (∀ r, randint 0 199 r = r % 200) ∧
    randint 0 199 t = t ∧
    read_batch fs3 (fun _ => 5) 1 3 "root" ["a", "b", "c"] =
      some (.error .indexError) ∧
    read_batch fs3 randABC 1 3 "root" ["a", "b", "c"] =
      some (.ok ([preprocess (convertRGB raw64), preprocess (convertRGB raw64),
        preprocess (convertRGB raw64)], [one_hot 0, one_hot 1, one_hot 2])) := by
  refine ⟨fun r => by simp [randint], ?_, rfl, rfl⟩
  simp [randint, Nat.mod_eq_of_lt (by omega : t < 200)]

/-- C1 amended witness: draw 7 selects class index 7. -/
theorem read_batch_class_draw_witness : randint 0 199 7 = 7 :=
  (read_batch_class_draw 7 (by norm_num)).2.1

/-- C3: when the wnid resolved for the drawn class index names a
subfolder absent from the images root, the existence busy-loop re-checks
the same class index forever: for every retry bound f it is still
running (none), never yielding a result or an error, and read_batch
itself diverges silently (none for every fuel) instead of propagating
any error to its caller. -/
theorem missing_class_folder_retries (fs : FS) (src : String)
    (labels : List String) (rand : Nat → Nat) (bs fuel : Nat) (wnid : String)
    (hbs : 1 ≤ bs) (hget : labels[randint 0 199 (rand 0)]? = some wnid)
    (hmiss : fs.pathExists (pathJoin src (pathJoin wnid "images")) = false) :
    (∀ f, existsLoop fs src labels (randint 0 199 (rand 0)) f = none) ∧
    read_batch fs rand fuel bs src labels = none := by
  have hloop : ∀ f, existsLoop fs src labels (randint 0 199 (rand 0)) f = none := by
    intro f
    induction f with
    | zero => rfl
    | succ f ih =>
      rw [existsLoop, hget]
      simp only [hmiss, Bool.false_eq_true, if_false]
      exact ih
  refine ⟨hloop, ?_⟩
  cases bs with
  | zero => exact absurd hbs (by omega)
  | succ n =>
    rw [read_batch, readBatchAux]
    simp only [hloop fuel]

/-- C3 witness: a world where the single wnid folder is missing — the
busy-loop is still running after 5 retries and read_batch diverges. -/
theorem missing_class_folder_retries_witness :
    existsLoop emptyFS "root" ["z"] 0 5 = none ∧
    read_batch emptyFS (fun _ => 0) 7 1 "root" ["z"] = none := by
  have h := missing_class_folder_retries emptyFS "root" ["z"] (fun _ => 0) 1 7 "z"
    (by norm_num) rfl rfl
  exact ⟨h.1 5, h.2⟩

/-- The selection loop never terminates in the fsSmall world: the only
file is 32 x 32, rejected on every iteration. -/
theorem readImageLoop_fsSmall (n k : Nat) :
    readImageLoop fsSmall "s/images" (fun _ => 0) n k = none := by
  induction n generalizing k with
  | zero => rfl
  | succ n ih => exact ih (k + 1)

/-- C4 evidence: read_image converts the opened file to RGB before the
shape check, so a class folder whose only file is a raw 64 x 64
grayscale image (one channel, hence not of raw shape 64 x 64 x 3) is
accepted on the first draw — the loop terminates although the folder
holds no image of raw shape 64 x 64 x 3, defeating the stated intent of
ignoring grayscale images. An image of the wrong spatial size (32 x 32)
is, by contrast, rejected forever: read_image never terminates there. -/
theorem read_image_accepts_grayscale :
    grayRaw.channels = 1 ∧
    npShape (convertRGB grayRaw) = (64, 64, 3) ∧
    read_image fsGray "g/images" (fun _ => 0) 1 0 =
      some (.ok (preprocess (convertRGB grayRaw), 1)) ∧
    (∀ fuel k, read_image fsSmall "s/images" (fun _ => 0) fuel k = none) := by
  refine ⟨rfl, rfl, rfl, ?_⟩
  intro fuel k
  rw [read_image, readImageLoop_fsSmall]

/-- C5: read_batch is deterministic under a fixed seed — two calls whose
draw streams agree pointwise, on the same filesystem with the same
arguments, return identical batches. -/
theorem read_batch_deterministic (fs fs2 : FS) (rand rand2 : Nat → Nat)
    (fuel bs : Nat) (src : String) (labels : List String)
    (hfs : fs = fs2) (hr : ∀ k, rand k = rand2 k) :
    read_batch fs rand fuel bs src labels = read_batch fs2 rand2 fuel bs src labels := by
  subst hfs
  rw [funext hr]

/-- C5 witness: two calls with the same concrete stream and world. -/
theorem read_batch_deterministic_witness :
    read_batch fsW (fun _ => 0) 1 1 "root" labelsW =
      read_batch fsW (fun _ => 0) 1 1 "root" labelsW :=
  read_batch_deterministic fsW fsW (fun _ => 0) (fun _ => 0) 1 1 "root" labelsW
    rfl (fun _ => rfl)

/-- C9: get_wnids returns the directory listing verbatim — same order,
duplicates kept, nothing validated — and surfaces FileNotFoundError when
the root path is missing, without retrying. -/
theorem get_wnids_spec (fs : FS) (p : String) :
    (∀ l, fs.listdir p = some l → get_wnids fs p = .ok l) ∧
    (fs.listdir p = none → get_wnids fs p = .error .fileNotFound) := by
  constructor
  · intro l h; rw [get_wnids, h]
  · intro h; rw [get_wnids, h]

/-- C9 witness: an unsorted listing with a duplicate is returned
verbatim, and a missing root errors. -/
theorem get_wnids_spec_witness :
    get_wnids fsDup "r" = .ok ["b", "b", "a"] ∧
    get_wnids emptyFS "r" = .error .fileNotFound :=
  ⟨(get_wnids_spec fsDup "r").1 ["b", "b", "a"] rfl, (get_wnids_spec emptyFS "r").2 rfl⟩

/-- C10 counterexample: in a concrete world, read_batch with
batch_size 0 raises ValueError (np.vstack of the empty list) instead of
returning two empty sequences. -/
theorem read_batch_zero_counterexample :
    read_batch fsW (fun _ => 0) 1 0 "root" labelsW = some (.error .valueError) := rfl

/-- C10 amended: with batch_size 0 the loop body never runs, so no class
index is sampled and the filesystem is never read — the result is the
same for every filesystem, stream and fuel — but the call raises
ValueError from np.vstack on the empty image list instead of returning
two empty sequences. -/
theorem read_batch_zero (fs : FS) (rand : Nat → Nat) (fuel : Nat)
    (src : String) (labels : List String) :
    read_batch fs rand fuel 0 src labels = some (.error .valueError) := rfl

end AlexnetData
